/-
Verification of the Steam-to-Notion gaming tracker (gaming_tracker.py,
index.py) against its natural-language specification.

Shallow embedding conventions:
- Python dicts are association lists `List (k × v)`; `getKey` models `d.get(k)`
  / `k in d`, and `setKey` models `d[k] = v` (in-place replacement of an
  existing key, append of a new one, matching dict insertion order).
- Python ints are `Int` (playtime minutes, epochs), counts are `Nat`.
- Python `round(x, n)` is modelled on rationals with round-half-to-even at the
  n-th decimal (`pythonRound1`, `pythonRound2`).
- Fallible operations return `Except String _`; network responses are explicit
  values fed to the functions that consume them.

Note on gaming_tracker.py lines 606-609: the "skip if not a valid game" block
inside `sync_games_to_notion` is mis-indented (indent 20 under a body of
indent 12 with no block opener) and references `game_details` before
assignment, so the module does not parse (IndentationError).  The embedding
of the sync loop models the rest of the loop body, which is well-formed.
-/
import Mathlib

namespace Tracker

/-- `d.get(k)` on a Python dict modelled as an association list. -/
def getKey {α β : Type} [DecidableEq α] : List (α × β) → α → Option β
  | [], _ => none
  | (k, v) :: rest, a => if k = a then some v else getKey rest a

/-- `d[k] = v` on a Python dict: replace the value of an existing key in
place, append a fresh key at the end (dict insertion order). -/
def setKey {α β : Type} [DecidableEq α] : List (α × β) → α → β → List (α × β)
  | [], a, b => [(a, b)]
  | (k, v) :: rest, a, b =>
    if k = a then (k, b) :: rest else (k, v) :: setKey rest a b

theorem getKey_setKey_self {α β : Type} [DecidableEq α]
    (d : List (α × β)) (a : α) (b : β) : getKey (setKey d a b) a = some b := by
  induction d with
  | nil => simp [getKey, setKey]
  | cons hd tl ih =>
    obtain ⟨k, v⟩ := hd
    by_cases hk : k = a
    · simp [getKey, setKey, hk]
    · simp [getKey, setKey, hk, ih]

theorem getKey_setKey_ne {α β : Type} [DecidableEq α]
    (d : List (α × β)) (a j : α) (b : β) (hja : j ≠ a) :
    getKey (setKey d a b) j = getKey d j := by
  have haj : a ≠ j := fun h => hja h.symm
  induction d with
  | nil => simp [getKey, setKey, haj]
  | cons hd tl ih =>
    obtain ⟨k, v⟩ := hd
    by_cases hk : k = a
    · subst hk
      simp [getKey, setKey, haj]
    · simp [getKey, setKey, hk, ih]

/-- Per-game session state: the value stored under `str(app_id)` in
`SessionTracker.sessions` (gaming_tracker.py lines 168-172). -/
structure SessionData where
  session_count : Nat
  last_playtime : Int
  last_played : Int
deriving DecidableEq, Repr

/-- The in-memory `self.sessions` mapping.  Python keys the dict by
`str(app_id)`; `str` is injective on ints, so the embedding keys by the id. -/
abbrev Sessions := List (Nat × SessionData)

/-- `SessionTracker.update_session_count` (gaming_tracker.py lines 162-187),
without the trailing `save_sessions` call (persistence is modelled separately
in `TrackerState.update_session_count`).  Returns the updated mapping and the
returned `session_count`.  The stored entries always carry both
`last_playtime` and `last_played`, so the `.get(key, 0)` defaults of lines
177-179 never fire; the final lookup of line 187 always finds the key, so the
`getD 0` fallback is dead. -/
def update_session_count (sessions : Sessions) (app_id : Nat)
    (current_playtime last_played : Int) : Sessions × Nat :=
  match getKey sessions app_id with
  | none =>
    let s' := setKey sessions app_id
      { session_count := if current_playtime > 0 then 1 else 0
        last_playtime := current_playtime
        last_played := last_played }
    (s', ((getKey s' app_id).map SessionData.session_count).getD 0)
  | some session_data =>
    let s' :=
      if current_playtime > session_data.last_playtime then
        let sc :=
          if last_played - session_data.last_played > 3600 then
            session_data.session_count + 1
          else session_data.session_count
        setKey sessions app_id
          { session_count := sc
            last_playtime := current_playtime
            last_played := last_played }
      else sessions
    (s', ((getKey s' app_id).map SessionData.session_count).getD 0)

/-- The session count stored for an id, `0` when no state exists. -/
def countOf (sessions : Sessions) (app_id : Nat) : Nat :=
  ((getKey sessions app_id).map SessionData.session_count).getD 0

/-- A sequence of `update_session_count` calls, applied left to right;
each triple is `(app_id, current_playtime, last_played)`. -/
def runCalls (sessions : Sessions) (calls : List (Nat × Int × Int)) : Sessions :=
  calls.foldl (fun s c => (update_session_count s c.1 c.2.1 c.2.2).1) sessions

/-- The tracker's in-memory mapping together with the durable session file.
`file = none` models a missing `gaming_sessions.json`. -/
structure TrackerState where
  sessions : Sessions
  file : Option Sessions
deriving DecidableEq, Repr

/-- `SessionTracker.load_sessions` (gaming_tracker.py lines 149-155): read the
file; `FileNotFoundError` (a missing file) yields the empty mapping. -/
def load_sessions (file : Option Sessions) : Sessions :=
  file.getD []

/-- `SessionTracker.save_sessions` (gaming_tracker.py lines 157-160): rewrite
the whole durable file from the in-memory mapping. -/
def save_sessions (st : TrackerState) : TrackerState :=
  { st with file := some st.sessions }

/-- `SessionTracker.update_session_count` including its trailing
`self.save_sessions()` and final lookup (gaming_tracker.py lines 162-187). -/
def TrackerState.update_session_count (st : TrackerState) (app_id : Nat)
    (current_playtime last_played : Int) : TrackerState × Nat :=
  let (sessions', ret) :=
    Tracker.update_session_count st.sessions app_id current_playtime last_played
  (save_sessions { st with sessions := sessions' }, ret)

/-- index.py `SessonTracker.save_sessions` (lines 153-159): despite its
docstring "Save sessison data to file", the body opens
`session.session_file` for reading and loads it; the name `session` is
undefined in that scope, so every call raises `NameError` (the handler
catches only `FileNotFoundError`), and the durable file is never written. -/
def SessonTracker.save_sessions (st : TrackerState) :
    Except String TrackerState :=
  .error "NameError: name session is not defined"

/-- index.py `SessonTracker.update_session_count` (lines 161-183): the same
mutation logic as gaming_tracker.py, followed by the call to the broken
`save_sessions`, whose `NameError` propagates to the caller. -/
def SessonTracker.update_session_count (st : TrackerState) (app_id : Nat)
    (current_playtime last_played : Int) : Except String (TrackerState × Nat) := do
  let (sessions', ret) :=
    Tracker.update_session_count st.sessions app_id current_playtime last_played
  let st' ← SessonTracker.save_sessions { st with sessions := sessions' }
  return (st', ret)

/-- One entry of a detail record's `genres` list: a dict whose `description`
key may be absent (`genre.get('description')` then yields `None`). -/
structure Genre where
  description : Option String
deriving DecidableEq, Repr

/-- The fields of a Steam store detail record consumed by the validator
(gaming_tracker.py lines 563-583).  The empty record `{}` of a failed fetch
is `⟨none, none, []⟩`. -/
structure GameDetails where
  type : Option String
  name : Option String
  genres : List Genre
deriving DecidableEq, Repr

/-- The empty detail dict `{}` returned on fetch failure. -/
def GameDetails.empty : GameDetails := ⟨none, none, []⟩

/-- The fixed non-applicable category set of gaming_tracker.py line 577. -/
def non_game_genres : List String :=
  ["Utilities", "Software", "Video Production", "Animation & Modeling",
   "Design & Illustration"]

/-- Membership of `genre.get('description')` in `non_game_genres`: a missing
description (`None`) is not an element of the set. -/
def descIn (d : Option String) (s : List String) : Bool :=
  match d with
  | none => false
  | some str => s.contains str

/-- Python `str.lower()`, mapped over the characters (the type strings
compared here are ASCII). -/
def pyLower (s : String) : String := ⟨s.data.map Char.toLower⟩

/-- `GamingTracker.is_valid_game` (gaming_tracker.py lines 563-583): type must
case-insensitively be "game", the genre list must be non-empty, and at least
one genre description must lie outside `non_game_genres`. -/
def is_valid_game (game_details : GameDetails) : Bool :=
  if (pyLower (game_details.type.getD "") != "game") then false
  else if game_details.genres.isEmpty then false
  else if !(game_details.genres.any fun genre =>
      !(descIn genre.description non_game_genres)) then false
  else true

/-- One achievement entry of the player-stats payload; `achieved` is the
value of `ach.get('achieved')` (absent key gives `none`). -/
structure Achievement where
  achieved : Option Int
deriving DecidableEq, Repr

/-- The `playerstats` sub-dict of the achievements payload; its
`achievements` key may be absent. -/
structure PlayerStats where
  achievements : Option (List Achievement)
deriving DecidableEq, Repr

/-- The JSON payload of the GetPlayerAchievements endpoint; the empty dict
`{}` of a failed or private fetch is `⟨none⟩`. -/
structure AchievementsData where
  playerstats : Option PlayerStats
deriving DecidableEq, Repr

/-- The empty dict `{}` returned on failure / private stats. -/
def AchievementsData.empty : AchievementsData := ⟨none⟩

/-- An HTTP response with status code and (achievements) JSON body. -/
structure HttpResponse where
  status : Nat
  body : AchievementsData
deriving DecidableEq, Repr

/-- One attempted request: `none` models a `requests` connection failure
(timeout, DNS, ...), `some r` an HTTP response. -/
abbrev FetchAttempt := Option HttpResponse

/-- `SteamAPI.get_game_achievements` (gaming_tracker.py lines 87-106): a 403
returns `{}` directly (private stats); `raise_for_status` raises on any
status ≥ 400 and the handler returns `{}` ; a connection failure also yields
`{}`; otherwise the JSON body is returned. -/
def get_game_achievements (attempt : FetchAttempt) : AchievementsData :=
  match attempt with
  | none => AchievementsData.empty
  | some response =>
    if response.status == 403 then AchievementsData.empty
    else if response.status < 400 then response.body
    else AchievementsData.empty

/-- An HTTP response of the store appdetails endpoint; `body` is the already
extracted `data[str(app_id)]['data']` dict of gaming_tracker.py line 82. -/
structure DetailsResponse where
  status : Nat
  body : GameDetails
deriving DecidableEq, Repr

/-- `SteamAPI.get_game_details` (gaming_tracker.py lines 70-85): there is no
403 special case here; any status ≥ 400 raises inside `raise_for_status` and
the handler returns `{}`, as does a connection failure. -/
def get_game_details (attempt : Option DetailsResponse) : GameDetails :=
  match attempt with
  | none => GameDetails.empty
  | some response =>
    if response.status < 400 then response.body
    else GameDetails.empty

/-- Observable trace of one call to `get_game_achievements`: the value
returned to the caller, how many HTTP attempts were made and how many
exponential-backoff pauses were taken. -/
structure FetchTrace where
  result : AchievementsData
  attempts : Nat
  backoffPauses : Nat
deriving DecidableEq, Repr

/-- A whole call of `SteamAPI.get_game_achievements` run against a source
that would answer successive attempts with `source[0], source[1], ...`.
The code body (lines 97-106) contains a single `requests.get` and no retry
loop, so exactly the first answer is consumed, with no backoff pause; an
empty source stands for a connection failure on that single attempt. -/
def run_get_game_achievements (source : List FetchAttempt) : FetchTrace :=
  { result := get_game_achievements (source.headD none)
    attempts := 1
    backoffPauses := 0 }

/-- Round half to even on an integer boundary (Python's `round` semantics on
the exact rational value). -/
def roundHalfEven (q : ℚ) : ℤ :=
  if q - ⌊q⌋ < 1 / 2 then ⌊q⌋
  else if 1 / 2 < q - ⌊q⌋ then ⌊q⌋ + 1
  else if ⌊q⌋ % 2 = 0 then ⌊q⌋ else ⌊q⌋ + 1

/-- Python `round(q, 1)` modelled on exact rationals. -/
def pythonRound1 (q : ℚ) : ℚ := (roundHalfEven (q * 10) : ℚ) / 10

/-- Python `round(q, 2)` modelled on exact rationals. -/
def pythonRound2 (q : ℚ) : ℚ := (roundHalfEven (q * 100) : ℚ) / 100

/-- `GamingTracker.calculate_achievement_completion` (gaming_tracker.py lines
543-561) applied to the payload its fetch returned: a falsy
`achievements_data.get('playerstats', {}).get('achievements')` (missing dict,
missing key, or empty list) yields 0; otherwise
`round(completed / total * 100, 1)` with `completed` the number of entries
whose `achieved` equals 1. -/
def calculate_achievement_completion (achievements_data : AchievementsData) : ℚ :=
  match achievements_data.playerstats with
  | none => 0
  | some playerstats =>
    match playerstats.achievements with
    | none => 0
    | some achievements =>
      if achievements.isEmpty then 0
      else
        let completed : Nat :=
          (achievements.filter (fun ach => ach.achieved == some 1)).length
        let total : Nat := achievements.length
        if total > 0 then pythonRound1 ((completed : ℚ) / (total : ℚ) * 100)
        else 0

/-- The `price_overview` sub-dict of a detail record; `final` is the price in
minor currency units. -/
structure PriceOverview where
  final : Int
deriving DecidableEq, Repr

/-- The fields of the merged `full_game_data` dict consumed by
`NotionAPI.update_game_entry` (gaming_tracker.py lines 308-342).
`rtime_last_played = some 0` is falsy in Python, like an absent key. -/
structure GameData where
  playtime_forever : Int
  price_overview : Option PriceOverview
  rtime_last_played : Option Int
deriving DecidableEq, Repr

/-- A Notion property value.  A `date` property is modelled by the epoch the
code formats with `datetime.fromtimestamp(...).isoformat()` (`none` for
`{"date": None}`); string rendering is irrelevant to the claims. -/
inductive PropValue where
  | number (q : ℚ)
  | dateOf (epoch : Option Int)
deriving DecidableEq

/-- The `properties` dict built by `NotionAPI.update_game_entry`
(gaming_tracker.py lines 313-331): hours, session count, the two last-played
dates, cost per hour and achievement completion — and nothing else. -/
def update_game_entry_properties (game_data : GameData) (session_count : Nat)
    (achievement_completion : ℚ) : List (String × PropValue) :=
  let playtime_minutes := game_data.playtime_forever
  let hours_played : ℚ :=
    if playtime_minutes > 0 then pythonRound1 ((playtime_minutes : ℚ) / 60) else 0
  let price : ℚ :=
    match game_data.price_overview with
    | some p => (p.final : ℚ) / 100
    | none => 0
  let cost_per_hour : ℚ :=
    if hours_played > 0 ∧ price > 0 then pythonRound2 (price / hours_played) else 0
  let last_played_date : Option Int :=
    match game_data.rtime_last_played with
    | some t => if t ≠ 0 then some t else none
    | none => none
  [("Hours Played", .number hours_played),
   ("Session Count", .number (session_count : ℚ)),
   ("Last Played", .dateOf last_played_date),
   ("Most Recent Session", .dateOf last_played_date),
   ("Cost Per Hour", .number cost_per_hour),
   ("Achievement Completion", .number achievement_completion)]

/-- One page of a Notion database query result: the number stored under the
`App ID` property (`none` when the property is absent or has no number) and
the page's opaque id. -/
structure NotionPage where
  app_id_number : Option Int
  page_id : String
deriving DecidableEq, Repr

/-- The sink's answer to one paginated query request: a result page with the
`has_more` flag and `next_cursor`, or a transport error (`RequestException`). -/
inductive QueryResponse where
  | ok (results : List NotionPage) (has_more : Bool) (next_cursor : Option String)
  | err
deriving DecidableEq, Repr

/-- The request payload built at gaming_tracker.py lines 353-355. -/
structure QueryRequest where
  page_size : Nat
  start_cursor : Option String
deriving DecidableEq, Repr

/-- The body of the per-page loop at gaming_tracker.py lines 362-365:
`existing_games[app_id_prop['number']] = page['id']`, executed only when
`app_id_prop.get('number')` is truthy — i.e. present and nonzero. -/
def insertPage (acc : List (Int × String)) (page : NotionPage) :
    List (Int × String) :=
  match page.app_id_number with
  | some n => if n ≠ 0 then setKey acc n page.page_id else acc
  | none => acc

/-- The `while has_more` loop of `NotionAPI.get_existing_games`
(gaming_tracker.py lines 352-372), run against the successive answers of the
sink.  Each iteration issues one request (page size 100, current cursor) and
consumes one answer; a transport error breaks the loop with the mapping
collected so far; exhausting the modelled answer list behaves like a
transport failure on that request. -/
def get_existing_games_go : List QueryResponse → Option String →
    List (Int × String) → List QueryRequest × List (Int × String)
  | [], cursor, acc => ([⟨100, cursor⟩], acc)
  | response :: rest, cursor, acc =>
    let req : QueryRequest := ⟨100, cursor⟩
    match response with
    | .err => ([req], acc)
    | .ok results hasMore nextCursor =>
      let acc' := results.foldl insertPage acc
      if hasMore then
        let out := get_existing_games_go rest nextCursor acc'
        (req :: out.1, out.2)
      else ([req], acc')

/-- `NotionAPI.get_existing_games` (gaming_tracker.py lines 344-374):
returns the issued requests and the aggregated `app_id -> page_id` mapping. -/
def get_existing_games (responses : List QueryResponse) :
    List QueryRequest × List (Int × String) :=
  get_existing_games_go responses none []

/-- The pages the loop actually processes: all result pages up to and
including the first page whose `has_more` is false, stopping early (with
nothing from that request) at a transport error or exhausted answer list. -/
def pagesFetched : List QueryResponse → List NotionPage
  | [] => []
  | .err :: _ => []
  | .ok results true _ :: rest => results ++ pagesFetched rest
  | .ok results false _ :: _ => results

/-- One item of the Steam owned-games listing, as consumed by the sync loop
(gaming_tracker.py lines 602-661). -/
structure OwnedGame where
  appid : Int
  playtime_forever : Int
  rtime_last_played : Int
deriving DecidableEq, Repr

/-- Tally and routing trace of one `sync_games_to_notion` run.  `synced`,
`updated`, `errors` are the counters of line 600/663; `updateCalls` and
`createCalls` record the app ids passed to `update_game_entry` and
`create_game_entry` in order. -/
structure SyncOutcome where
  synced : Nat
  updated : Nat
  errors : Nat
  updateCalls : List Int
  createCalls : List Int
deriving DecidableEq, Repr

/-- One iteration of the per-game loop (gaming_tracker.py lines 602-661).
`raises g` models an exception escaping the fetch/session/achievement phase
of the try block for that game (caught at line 659, `errors += 1`);
`callOk g` models the boolean success of the Notion create/update call for
that game.  The mis-indented fragment of lines 606-609 is not modelled (see
the header note). -/
def processGame (existing_games : List (Int × String)) (update_existing : Bool)
    (raises callOk : Int → Bool) (st : SyncOutcome) (game : OwnedGame) :
    SyncOutcome :=
  if raises game.appid then { st with errors := st.errors + 1 }
  else if (getKey existing_games game.appid).isSome ∧ update_existing then
    let st := { st with updateCalls := st.updateCalls ++ [game.appid] }
    if callOk game.appid then { st with updated := st.updated + 1 }
    else { st with errors := st.errors + 1 }
  else if (getKey existing_games game.appid).isNone then
    let st := { st with createCalls := st.createCalls ++ [game.appid] }
    if callOk game.appid then { st with synced := st.synced + 1 }
    else { st with errors := st.errors + 1 }
  else st

/-- `GamingTracker.sync_games_to_notion` (gaming_tracker.py lines 585-665)
restricted to its routing and tally behaviour: `fetched` is the map returned
by `get_existing_games` (replaced by `{}` when `update_existing` is false,
line 598), and the per-game loop is folded over the games list. -/
def sync_games_to_notion (fetched : List (Int × String))
    (update_existing : Bool) (raises callOk : Int → Bool)
    (games : List OwnedGame) : SyncOutcome :=
  let existing_games := if update_existing then fetched else []
  games.foldl (processGame existing_games update_existing raises callOk)
    ⟨0, 0, 0, [], []⟩

/-- C1: Session inference rule.  A first observation of an item creates state
with `session_count = 1` when the usage counter is positive and `0`
otherwise; a later observation whose counter strictly exceeds the stored one
adds exactly 1 to the count iff the epoch gap is strictly greater than 3600
seconds, and always refreshes the stored counter and epoch; the concrete
sequence `observe(7,100,1000); observe(7,150,4601); observe(7,200,4611)`
returns 1, 2, 2. -/
theorem C1_session_inference (sessions : Sessions) (app_id : Nat) (u t : Int) :
    (getKey sessions app_id = none →
      update_session_count sessions app_id u t =
        (setKey sessions app_id ⟨if u > 0 then 1 else 0, u, t⟩,
         if u > 0 then 1 else 0))
    ∧ (∀ sd : SessionData, getKey sessions app_id = some sd → u > sd.last_playtime →
      update_session_count sessions app_id u t =
        (setKey sessions app_id
           ⟨sd.session_count + (if t - sd.last_played > 3600 then 1 else 0), u, t⟩,
         sd.session_count + (if t - sd.last_played > 3600 then 1 else 0)))
    ∧ (update_session_count [] 7 100 1000).2 = 1
    ∧ (update_session_count (update_session_count [] 7 100 1000).1 7 150 4601).2 = 2
    ∧ (update_session_count (update_session_count
        (update_session_count [] 7 100 1000).1 7 150 4601).1 7 200 4611).2 = 2 := by
  refine ⟨?_, ?_, by decide, by decide, by decide⟩
  · intro hnone
    simp [update_session_count, hnone, getKey_setKey_self]
  · intro sd hsome hgt
    simp only [update_session_count, hsome, hgt, if_pos, getKey_setKey_self]
    split <;> simp

/-- Closed witness for `C1_session_inference`. -/
theorem C1_session_inference_witness :
    update_session_count [] 3 5 10 = ([(3, ⟨1, 5, 10⟩)], 1)
    ∧ update_session_count [(3, ⟨1, 5, 10⟩)] 3 9 5000 =
        ([(3, ⟨2, 9, 5000⟩)], 2) := by
  constructor
  · have h := (C1_session_inference [] 3 5 10).1 rfl
    simpa [setKey] using h
  · have h := (C1_session_inference [(3, ⟨1, 5, 10⟩)] 3 9 5000).2.1
      ⟨1, 5, 10⟩ rfl (by decide)
    simpa [setKey] using h

theorem countOf_setKey_self (sessions : Sessions) (app_id : Nat)
    (sd : SessionData) :
    countOf (setKey sessions app_id sd) app_id = sd.session_count := by
  simp [countOf, getKey_setKey_self]

theorem countOf_setKey_ne (sessions : Sessions) (app_id j : Nat)
    (sd : SessionData) (hj : j ≠ app_id) :
    countOf (setKey sessions app_id sd) j = countOf sessions j := by
  simp [countOf, getKey_setKey_ne _ _ _ _ hj]

/-- Single-step bounds: one `update_session_count` call never decreases any
stored count and raises any count by at most one. -/
theorem countOf_update_step (sessions : Sessions) (app_id : Nat) (u t : Int)
    (j : Nat) :
    countOf sessions j ≤ countOf (update_session_count sessions app_id u t).1 j
    ∧ countOf (update_session_count sessions app_id u t).1 j
        ≤ countOf sessions j + 1 := by
  by_cases hj : j = app_id
  · subst hj
    rcases hga : getKey sessions j with _ | sd
    · have h0 : countOf sessions j = 0 := by simp [countOf, hga]
      simp only [update_session_count, hga, countOf_setKey_self, h0]
      split <;> simp
    · have h0 : countOf sessions j = sd.session_count := by simp [countOf, hga]
      simp only [update_session_count, hga]
      split
      · simp only [countOf_setKey_self, h0]
        split <;> simp
      · simp [h0]
  · rcases hga : getKey sessions app_id with _ | sd
    · simp [update_session_count, hga, countOf_setKey_ne _ _ _ _ hj]
    · simp only [update_session_count, hga]
      split
      · simp [countOf_setKey_ne _ _ _ _ hj]
      · simp

/-- C2: Session-count monotonicity.  No call decreases a stored session
count; each call raises each stored count by at most one; a call whose usage
counter does not strictly exceed the stored value leaves the whole mapping
unchanged; over any sequence of calls the stored count of every id is
monotonically non-decreasing. -/
theorem C2_session_monotonicity :
    (∀ (sessions : Sessions) (app_id : Nat) (u t : Int) (j : Nat),
        countOf sessions j ≤ countOf (update_session_count sessions app_id u t).1 j
      ∧ countOf (update_session_count sessions app_id u t).1 j
          ≤ countOf sessions j + 1)
    ∧ (∀ (sessions : Sessions) (app_id : Nat) (u t : Int) (sd : SessionData),
        getKey sessions app_id = some sd → u ≤ sd.last_playtime →
        (update_session_count sessions app_id u t).1 = sessions)
    ∧ (∀ (calls : List (Nat × Int × Int)) (sessions : Sessions) (j : Nat),
        countOf sessions j ≤ countOf (runCalls sessions calls) j) := by
  refine ⟨countOf_update_step, ?_, ?_⟩
  · intro sessions app_id u t sd hsome hle
    have hnot : ¬ (u > sd.last_playtime) := not_lt.mpr hle
    simp [update_session_count, hsome, hnot]
  · intro calls
    induction calls with
    | nil => intro sessions j; simp [runCalls]
    | cons c rest ih =>
      intro sessions j
      have h1 := (countOf_update_step sessions c.1 c.2.1 c.2.2 j).1
      have h2 := ih (update_session_count sessions c.1 c.2.1 c.2.2).1 j
      calc countOf sessions j
          ≤ countOf (update_session_count sessions c.1 c.2.1 c.2.2).1 j := h1
        _ ≤ _ := by simpa [runCalls] using h2

/-- Closed witness for `C2_session_monotonicity`. -/
theorem C2_session_monotonicity_witness :
    (update_session_count [(4, ⟨2, 50, 700⟩)] 4 40 9999).1 = [(4, ⟨2, 50, 700⟩)]
    ∧ countOf [] 4 ≤ countOf (runCalls [] [(4, 10, 0), (4, 20, 9000)]) 4 := by
  constructor
  · exact C2_session_monotonicity.2.1 [(4, ⟨2, 50, 700⟩)] 4 40 9999
      ⟨2, 50, 700⟩ rfl (by decide)
  · exact C2_session_monotonicity.2.2 [(4, 10, 0), (4, 20, 9000)] [] 4

/-- C3: Validator classification.  `is_valid_game` is false on the empty
detail record, false when the type discriminator does not case-insensitively
equal "game", false when the genre list is empty, and false when every genre
lies inside the fixed non-applicable set; it is true exactly when the type is
"game", the genre list is non-empty, and some genre lies outside that set —
in particular true for type "game" with genres Action and Utilities.  (As a
Lean function of its argument it is by construction free of side effects.) -/
theorem C3_validator (gd : GameDetails) :
    is_valid_game GameDetails.empty = false
    ∧ (pyLower (gd.type.getD "") ≠ "game" → is_valid_game gd = false)
    ∧ (gd.genres = [] → is_valid_game gd = false)
    ∧ ((∀ g ∈ gd.genres, descIn g.description non_game_genres = true) →
        is_valid_game gd = false)
    ∧ (is_valid_game gd = true ↔
        pyLower (gd.type.getD "") = "game" ∧ gd.genres ≠ []
        ∧ ∃ g ∈ gd.genres, descIn g.description non_game_genres = false)
    ∧ is_valid_game ⟨some "game", some "X",
        [⟨some "Action"⟩, ⟨some "Utilities"⟩]⟩ = true := by
  refine ⟨by decide, ?_, ?_, ?_, ?_, by decide⟩
  · intro hty
    simp [is_valid_game, hty]
  · intro hg
    simp [is_valid_game, hg]
  · intro hall
    simp only [is_valid_game]
    split
    · rfl
    · split
      · rfl
      · split
        · rfl
        · rename_i hany
          exfalso
          simp only [Bool.not_eq_true', Bool.not_eq_false] at hany
          rw [List.any_eq_true] at hany
          obtain ⟨g, hmem, hg⟩ := hany
          rw [Bool.not_eq_true'] at hg
          exact absurd (hall g hmem) (by simp [hg])
  · constructor
    · intro h
      simp only [is_valid_game] at h
      by_cases hty : pyLower (gd.type.getD "") = "game"
      · by_cases hg : gd.genres.isEmpty
        · simp [hty, hg] at h
        · refine ⟨hty, by simpa using hg, ?_⟩
          by_cases hany : gd.genres.any
              (fun genre => !(descIn genre.description non_game_genres)) = true
          · rw [List.any_eq_true] at hany
            obtain ⟨g, hmem, hgd⟩ := hany
            exact ⟨g, hmem, by simpa using hgd⟩
          · simp [hty, hg, hany] at h
      · simp [hty] at h
    · rintro ⟨hty, hg, g, hmem, hout⟩
      have hany : gd.genres.any
          (fun genre => !(descIn genre.description non_game_genres)) = true :=
        List.any_eq_true.mpr ⟨g, hmem, by simp [hout]⟩
      simp [is_valid_game, hty, hg, hany]

/-- Closed witness for `C3_validator`. -/
theorem C3_validator_witness :
    is_valid_game ⟨some "Game", some "Tool",
      [⟨some "Utilities"⟩, ⟨some "Software"⟩]⟩ = false
    ∧ is_valid_game ⟨some "dlc", some "X", [⟨some "Action"⟩]⟩ = false := by
  constructor
  · exact (C3_validator ⟨some "Game", some "Tool",
      [⟨some "Utilities"⟩, ⟨some "Software"⟩]⟩).2.2.2.1 (by decide)
  · exact (C3_validator ⟨some "dlc", some "X", [⟨some "Action"⟩]⟩).2.1 (by decide)

/-- C4 counterexample: a source that answers 429, 429, then 200 with a
non-empty payload.  The claim predicts the successful payload after exactly
2 backoff pauses; the code has no retry loop, so the call returns the empty
value after a single attempt and zero pauses. -/
theorem C4_counterexample :
    run_get_game_achievements
        [some ⟨429, AchievementsData.empty⟩, some ⟨429, AchievementsData.empty⟩,
         some ⟨200, ⟨some ⟨some [⟨some 1⟩]⟩⟩⟩]
      = ⟨AchievementsData.empty, 1, 0⟩
    ∧ AchievementsData.empty ≠ (⟨some ⟨some [⟨some 1⟩]⟩⟩ : AchievementsData) := by
  exact ⟨rfl, by decide⟩

/-- C4 amended: every per-item detail or progress fetch makes exactly one
attempt with no backoff pause and no retry of any failure class; a 403 on
the achievements endpoint yields the empty result after that single attempt;
any failing status or connection error likewise yields the empty result
immediately (logged, never raised — the functions are total); a 2xx (or any
status below 400) yields the payload. -/
theorem C4_single_attempt (source : List FetchAttempt) :
    (run_get_game_achievements source).attempts = 1
    ∧ (run_get_game_achievements source).backoffPauses = 0
    ∧ (∀ r : HttpResponse, source.headD none = some r → r.status = 403 →
        (run_get_game_achievements source).result = AchievementsData.empty)
    ∧ (∀ r : HttpResponse, source.headD none = some r → 400 ≤ r.status →
        (run_get_game_achievements source).result = AchievementsData.empty)
    ∧ (source.headD none = none →
        (run_get_game_achievements source).result = AchievementsData.empty)
    ∧ (∀ r : HttpResponse, source.headD none = some r → r.status < 400 →
        r.status ≠ 403 → (run_get_game_achievements source).result = r.body)
    ∧ (∀ (attempt : Option DetailsResponse) (r : DetailsResponse),
        attempt = some r → 400 ≤ r.status →
        get_game_details attempt = GameDetails.empty)
    ∧ get_game_details none = GameDetails.empty := by
  refine ⟨rfl, rfl, ?_, ?_, ?_, ?_, ?_, rfl⟩
  · intro r hr h403
    unfold run_get_game_achievements get_game_achievements
    rw [hr]
    simp [h403]
  · intro r hr hge
    have h400 : ¬ r.status < 400 := not_lt.mpr hge
    unfold run_get_game_achievements get_game_achievements
    rw [hr]
    by_cases h : r.status = 403 <;> simp [h, h400]
  · intro hr
    unfold run_get_game_achievements get_game_achievements
    rw [hr]
  · intro r hr hlt h403
    unfold run_get_game_achievements get_game_achievements
    rw [hr]
    simp [h403, hlt]
  · intro attempt r hr hge
    have h400 : ¬ r.status < 400 := not_lt.mpr hge
    simp [get_game_details, hr, h400]

/-- Closed witness for `C4_single_attempt`. -/
theorem C4_single_attempt_witness :
    (run_get_game_achievements [some ⟨403, ⟨some ⟨some [⟨some 1⟩]⟩⟩⟩]).result
      = AchievementsData.empty
    ∧ (run_get_game_achievements [some ⟨500, AchievementsData.empty⟩]).attempts = 1
    ∧ get_game_details (some ⟨429, ⟨some "game", some "X", []⟩⟩)
      = GameDetails.empty := by
  refine ⟨?_, ?_, ?_⟩
  · exact (C4_single_attempt [some ⟨403, ⟨some ⟨some [⟨some 1⟩]⟩⟩⟩]).2.2.1
      ⟨403, ⟨some ⟨some [⟨some 1⟩]⟩⟩⟩ rfl rfl
  · exact (C4_single_attempt [some ⟨500, AchievementsData.empty⟩]).1
  · exact (C4_single_attempt []).2.2.2.2.2.2.1
      (some ⟨429, ⟨some "game", some "X", []⟩⟩) ⟨429, ⟨some "game", some "X", []⟩⟩
      rfl (by decide)

/-- Routing predicate of the update branch (gaming_tracker.py line 630):
no exception and an existing sink id. -/
def predU (existing : List (Int × String)) (raises : Int → Bool)
    (g : OwnedGame) : Bool :=
  !raises g.appid && (getKey existing g.appid).isSome

/-- Routing predicate of the create branch (gaming_tracker.py line 641):
no exception and no existing sink id. -/
def predC (existing : List (Int × String)) (raises : Int → Bool)
    (g : OwnedGame) : Bool :=
  !raises g.appid && (getKey existing g.appid).isNone

/-- Fold characterization of the sync loop with `update_existing = True`:
the calls issued are exactly the filtered app ids, and every game lands in
exactly one tally bucket. -/
theorem sync_fold_spec (existing : List (Int × String)) (raises callOk : Int → Bool)
    (games : List OwnedGame) (st : SyncOutcome) :
    let out := games.foldl (processGame existing true raises callOk) st
    out.updateCalls = st.updateCalls
        ++ (games.filter (predU existing raises)).map OwnedGame.appid
    ∧ out.createCalls = st.createCalls
        ++ (games.filter (predC existing raises)).map OwnedGame.appid
    ∧ out.synced + out.updated + out.errors
        = st.synced + st.updated + st.errors + games.length := by
  induction games generalizing st with
  | nil => simp
  | cons g rest ih =>
    simp only [List.foldl_cons]
    have step :
        (processGame existing true raises callOk st g).updateCalls
            = st.updateCalls ++ (if predU existing raises g then [g.appid] else [])
        ∧ (processGame existing true raises callOk st g).createCalls
            = st.createCalls ++ (if predC existing raises g then [g.appid] else [])
        ∧ (processGame existing true raises callOk st g).synced
            + (processGame existing true raises callOk st g).updated
            + (processGame existing true raises callOk st g).errors
            = st.synced + st.updated + st.errors + 1 := by
      by_cases hr : raises g.appid
      · simp only [processGame, hr, if_pos, predU, predC]
        constructor
        · simp
        constructor
        · simp
        · omega
      · rcases hex : getKey existing g.appid with _ | pid
        · have hs : ((getKey existing g.appid).isSome ∧ True) = False := by
            simp [hex]
          simp only [processGame, hr, if_neg, Bool.false_eq_true,
            not_false_iff, hex, predU, predC]
          by_cases hok : callOk g.appid <;>
            simp [hok, hr] <;> omega
        · simp only [processGame, hr, if_neg, Bool.false_eq_true,
            not_false_iff, hex, predU, predC]
          by_cases hok : callOk g.appid <;>
            simp [hok, hr] <;> omega
    obtain ⟨s1, s2, s3⟩ := step
    obtain ⟨i1, i2, i3⟩ := ih (processGame existing true raises callOk st g)
    refine ⟨?_, ?_, ?_⟩
    · rw [i1, s1]
      by_cases hp : predU existing raises g <;>
        simp [hp, List.filter_cons, List.append_assoc]
    · rw [i2, s2]
      by_cases hp : predC existing raises g <;>
        simp [hp, List.filter_cons, List.append_assoc]
    · rw [i3, s3]
      simp only [List.length_cons]
      omega

/-- Every game is routed to exactly one of the two partitions. -/
theorem filter_some_none_length (fetched : List (Int × String))
    (games : List OwnedGame) :
    (games.filter (fun g => (getKey fetched g.appid).isSome)).length
    + (games.filter (fun g => (getKey fetched g.appid).isNone)).length
    = games.length := by
  induction games with
  | nil => simp
  | cons g rest ihg =>
    rcases hex : getKey fetched g.appid with _ | pid <;>
      simp [List.filter_cons, hex] <;> omega

/-- C5 (modelled without the unparseable fragment of lines 606-609): with the
pre-fetched existing-records map and `update_existing = True`, and no
exception escaping an item's processing, exactly the M items whose app id is
in the map are routed to update calls and the other N−M to create calls;
`synced + updated + errors = N` after the run, and `synced + updated < N`
forces `errors > 0`. -/
theorem C5_partition_tally (fetched : List (Int × String)) (raises callOk : Int → Bool)
    (games : List OwnedGame) (hraises : ∀ g ∈ games, raises g.appid = false) :
    let out := sync_games_to_notion fetched true raises callOk games
    out.updateCalls
        = (games.filter (fun g => (getKey fetched g.appid).isSome)).map OwnedGame.appid
    ∧ out.createCalls
        = (games.filter (fun g => (getKey fetched g.appid).isNone)).map OwnedGame.appid
    ∧ out.updateCalls.length
        = (games.filter (fun g => (getKey fetched g.appid).isSome)).length
    ∧ out.createCalls.length
        = games.length
          - (games.filter (fun g => (getKey fetched g.appid).isSome)).length
    ∧ out.synced + out.updated + out.errors = games.length
    ∧ (out.synced + out.updated < games.length → 0 < out.errors) := by
  have hU : games.filter (predU fetched raises)
      = games.filter (fun g => (getKey fetched g.appid).isSome) := by
    apply List.filter_congr
    intro g hg
    simp [predU, hraises g hg]
  have hC : games.filter (predC fetched raises)
      = games.filter (fun g => (getKey fetched g.appid).isNone) := by
    apply List.filter_congr
    intro g hg
    simp [predC, hraises g hg]
  obtain ⟨h1, h2, h3⟩ := sync_fold_spec fetched raises callOk games ⟨0, 0, 0, [], []⟩
  have hsum := filter_some_none_length fetched games
  simp only [sync_games_to_notion, if_pos] at h1 h2 h3 ⊢
  rw [hU] at h1
  rw [hC] at h2
  refine ⟨by simpa using h1, by simpa using h2, ?_, ?_, ?_, ?_⟩
  · simp [h1]
  · simp only [h2, List.nil_append, List.length_map]
    omega
  · simpa using h3
  · intro hlt
    omega

/-- Closed witness for `C5_partition_tally`. -/
theorem C5_partition_tally_witness :
    (sync_games_to_notion [(2, "p2")] true (fun _ => false) (fun a => a ≠ 3)
        [⟨1, 10, 0⟩, ⟨2, 20, 0⟩, ⟨3, 30, 0⟩]).updateCalls = [2]
    ∧ (sync_games_to_notion [(2, "p2")] true (fun _ => false) (fun a => a ≠ 3)
        [⟨1, 10, 0⟩, ⟨2, 20, 0⟩, ⟨3, 30, 0⟩]).createCalls = [1, 3]
    ∧ (sync_games_to_notion [(2, "p2")] true (fun _ => false) (fun a => a ≠ 3)
        [⟨1, 10, 0⟩, ⟨2, 20, 0⟩, ⟨3, 30, 0⟩]).synced
      + (sync_games_to_notion [(2, "p2")] true (fun _ => false) (fun a => a ≠ 3)
        [⟨1, 10, 0⟩, ⟨2, 20, 0⟩, ⟨3, 30, 0⟩]).updated
      + (sync_games_to_notion [(2, "p2")] true (fun _ => false) (fun a => a ≠ 3)
        [⟨1, 10, 0⟩, ⟨2, 20, 0⟩, ⟨3, 30, 0⟩]).errors = 3 := by
  have h := C5_partition_tally [(2, "p2")] (fun _ => false) (fun a => a ≠ 3)
    [⟨1, 10, 0⟩, ⟨2, 20, 0⟩, ⟨3, 30, 0⟩] (by intro g hg; rfl)
  refine ⟨?_, ?_, h.2.2.2.2.1⟩
  · rw [h.1]; decide
  · rw [h.2.1]; decide

/-- C6: Write-through persistence.  In gaming_tracker.py, every
`update_session_count` call — including no-op calls — ends in
`save_sessions`, so the durable file equals the in-memory mapping at every
return, and loading a missing file yields the empty mapping.  In index.py,
the same operation instead raises `NameError` from its broken
`save_sessions` (which opens the file for reading through the undefined name
`session`), so the file is never rewritten there. -/
theorem C6_write_through :
    (∀ (st : TrackerState) (app_id : Nat) (u t : Int),
      (st.update_session_count app_id u t).1.file
        = some (st.update_session_count app_id u t).1.sessions)
    ∧ load_sessions none = []
    ∧ SessonTracker.update_session_count ⟨[], none⟩ 1 100 1000
        = .error "NameError: name session is not defined" := by
  refine ⟨?_, rfl, rfl⟩
  intro st app_id u t
  rfl

theorem roundHalfEven_nonneg (q : ℚ) (hq : 0 ≤ q) : 0 ≤ roundHalfEven q := by
  have hf : 0 ≤ ⌊q⌋ := Int.floor_nonneg.mpr hq
  unfold roundHalfEven
  split_ifs <;> omega

theorem roundHalfEven_le (q : ℚ) (n : ℤ) (h : q ≤ n) : roundHalfEven q ≤ n := by
  have hfl : ⌊q⌋ ≤ n := by
    have hx := Int.floor_le_floor (α := ℚ) h
    simpa using hx
  have hfq : (⌊q⌋ : ℚ) ≤ q := Int.floor_le q
  unfold roundHalfEven
  split_ifs with h1 h2 h3
  · exact hfl
  · by_contra hc
    have hn : n = ⌊q⌋ := by omega
    rw [hn] at h
    have hq2 : (⌊q⌋ : ℚ) + 1 / 2 ≤ q := by linarith [not_lt.mp h1]
    linarith
  · exact hfl
  · by_contra hc
    have hn : n = ⌊q⌋ := by omega
    rw [hn] at h
    have hq2 : (⌊q⌋ : ℚ) + 1 / 2 ≤ q := by linarith [not_lt.mp h1]
    linarith

theorem pythonRound1_mem_Icc (q : ℚ) (h0 : 0 ≤ q) (h100 : q ≤ 100) :
    0 ≤ pythonRound1 q ∧ pythonRound1 q ≤ 100 := by
  have hn : 0 ≤ roundHalfEven (q * 10) := roundHalfEven_nonneg _ (by linarith)
  have hl : roundHalfEven (q * 10) ≤ 1000 := by
    refine roundHalfEven_le _ 1000 ?_
    push_cast
    linarith
  unfold pythonRound1
  constructor
  · apply div_nonneg _ (by norm_num)
    exact_mod_cast hn
  · rw [div_le_iff₀ (by norm_num : (0 : ℚ) < 10)]
    calc ((roundHalfEven (q * 10) : ℚ)) ≤ 1000 := by exact_mod_cast hl
      _ = 100 * 10 := by norm_num

/-- C7: Achievement completion.  The computed percentage is 0 whenever the
payload is inaccessible (empty dict from a failed/private fetch), lacks an
achievement list, or the list is empty; on a non-empty list it equals
`completed / total * 100` rounded to one decimal; in every case it lies in
[0, 100], and the function is total (no error raised). -/
theorem C7_completion (achievements_data : AchievementsData) :
    0 ≤ calculate_achievement_completion achievements_data
    ∧ calculate_achievement_completion achievements_data ≤ 100
    ∧ (achievements_data.playerstats = none →
        calculate_achievement_completion achievements_data = 0)
    ∧ (∀ ps, achievements_data.playerstats = some ps → ps.achievements = none →
        calculate_achievement_completion achievements_data = 0)
    ∧ (∀ ps, achievements_data.playerstats = some ps → ps.achievements = some [] →
        calculate_achievement_completion achievements_data = 0)
    ∧ (∀ ps achievements, achievements_data.playerstats = some ps →
        ps.achievements = some achievements → achievements ≠ [] →
        calculate_achievement_completion achievements_data
          = pythonRound1
              (((achievements.filter (fun ach => ach.achieved == some 1)).length : ℚ)
                / (achievements.length : ℚ) * 100)) := by
  have bounds : 0 ≤ calculate_achievement_completion achievements_data
      ∧ calculate_achievement_completion achievements_data ≤ 100 := by
    rcases achievements_data with ⟨_ | ps⟩
    · simp [calculate_achievement_completion]
    rcases ps with ⟨_ | achs⟩
    · simp [calculate_achievement_completion]
    rcases hachs : achs with _ | ⟨a, rest⟩
    · simp [calculate_achievement_completion]
    · have hpos : (0 : ℚ) < ((a :: rest).length : ℚ) := by
        exact_mod_cast Nat.succ_pos rest.length
      have hq0 : 0 ≤ (((a :: rest).filter (fun ach => ach.achieved == some 1)).length : ℚ)
          / ((a :: rest).length : ℚ) * 100 := by
        positivity
      have hle : ((a :: rest).filter (fun ach => ach.achieved == some 1)).length
          ≤ (a :: rest).length := List.length_filter_le _ _
      have hq100 : (((a :: rest).filter (fun ach => ach.achieved == some 1)).length : ℚ)
          / ((a :: rest).length : ℚ) * 100 ≤ 100 := by
        have hdiv : (((a :: rest).filter (fun ach => ach.achieved == some 1)).length : ℚ)
            / ((a :: rest).length : ℚ) ≤ 1 := by
          rw [div_le_one hpos]
          exact_mod_cast hle
        nlinarith
      have hr := pythonRound1_mem_Icc _ hq0 hq100
      simpa [calculate_achievement_completion] using hr
  refine ⟨bounds.1, bounds.2, ?_, ?_, ?_, ?_⟩
  · intro h
    simp [calculate_achievement_completion, h]
  · intro ps hps hach
    simp [calculate_achievement_completion, hps, hach]
  · intro ps hps hach
    simp [calculate_achievement_completion, hps, hach]
  · intro ps achievements hps hach hne
    have hlen : 0 < achievements.length := List.length_pos.mpr hne
    simp [calculate_achievement_completion, hps, hach,
      List.isEmpty_iff, hne, hlen]

/-- Closed witness for `C7_completion`. -/
theorem C7_completion_witness :
    calculate_achievement_completion AchievementsData.empty = 0
    ∧ calculate_achievement_completion ⟨some ⟨some [⟨some 1⟩, ⟨some 0⟩, ⟨none⟩]⟩⟩
        = pythonRound1 ((1 : ℚ) / 3 * 100) := by
  constructor
  · exact (C7_completion AchievementsData.empty).2.2.1 rfl
  · have h := (C7_completion ⟨some ⟨some [⟨some 1⟩, ⟨some 0⟩, ⟨none⟩]⟩⟩).2.2.2.2.2
      ⟨some [⟨some 1⟩, ⟨some 0⟩, ⟨none⟩]⟩ [⟨some 1⟩, ⟨some 0⟩, ⟨none⟩]
      rfl rfl (by simp)
    simpa using h

/-- C8 counterexample: the update payload contains the "Cost Per Hour"
property (and in fact six properties), so it is not restricted to the
hours-played / session-count / achievement-completion triple the claim
states. -/
theorem C8_counterexample :
    "Cost Per Hour" ∈ (update_game_entry_properties ⟨0, none, none⟩ 0 0).map Prod.fst
    ∧ "Cost Per Hour" ∉ (["Hours Played", "Session Count", "Achievement Completion"] :
        List String) := by
  constructor
  · show "Cost Per Hour" ∈ ["Hours Played", "Session Count", "Last Played",
      "Most Recent Session", "Cost Per Hour", "Achievement Completion"]
    simp
  · simp

/-- C8 amended: the update payload contains exactly the six properties
Hours Played, Session Count, Last Played, Most Recent Session, Cost Per Hour
and Achievement Completion — in particular never any rating property nor any
descriptive property (title, genres, price, developer, publisher,
description), so those remote fields are unchanged by an automated update. -/
theorem C8_update_frame (game_data : GameData) (session_count : Nat)
    (achievement_completion : ℚ) :
    (update_game_entry_properties game_data session_count
        achievement_completion).map Prod.fst
      = ["Hours Played", "Session Count", "Last Played", "Most Recent Session",
         "Cost Per Hour", "Achievement Completion"]
    ∧ ∀ k ∈ (["Game Name", "App ID", "Genres", "Price", "Release Date",
        "Purchase Date", "Developer", "Publisher", "Description",
        "Gameplay Rating", "Story/Worldbuilding Rating",
        "Graphics/Art Style Rating", "Music/Sound Design Rating",
        "Replayability Rating", "Emotional Impact Rating",
        "Notes", "Status", "Platform"] : List String),
        k ∉ (update_game_entry_properties game_data session_count
          achievement_completion).map Prod.fst := by
  refine ⟨rfl, ?_⟩
  intro k hk
  rw [show (update_game_entry_properties game_data session_count
      achievement_completion).map Prod.fst
      = ["Hours Played", "Session Count", "Last Played", "Most Recent Session",
         "Cost Per Hour", "Achievement Completion"] from rfl]
  fin_cases hk <;> simp

/-- Closed witness for `C8_update_frame`. -/
theorem C8_update_frame_witness :
    "Gameplay Rating" ∉ (update_game_entry_properties
      ⟨600, some ⟨1999⟩, some 1700000000⟩ 4 (55 / 10)).map Prod.fst := by
  exact (C8_update_frame ⟨600, some ⟨1999⟩, some 1700000000⟩ 4 (55 / 10)).2
    "Gameplay Rating" (by simp)

/-- A response page that lets the loop continue: a successful result with
`has_more = true`. -/
def isOkMore : QueryResponse → Bool
  | .ok _ true _ => true
  | _ => false

theorem go_spec (responses : List QueryResponse) :
    ∀ (cursor : Option String) (acc : List (Int × String)),
    (get_existing_games_go responses cursor acc).2
      = (pagesFetched responses).foldl insertPage acc := by
  induction responses with
  | nil => intro cursor acc; rfl
  | cons r rest ih =>
    intro cursor acc
    cases r with
    | err => rfl
    | ok results hm c =>
      cases hm
      · rfl
      · simp only [get_existing_games_go, if_pos, pagesFetched,
          List.foldl_append]
        exact ih c (results.foldl insertPage acc)

theorem go_reqs (responses : List QueryResponse) :
    ∀ (cursor : Option String) (acc : List (Int × String)),
    ∀ req ∈ (get_existing_games_go responses cursor acc).1, req.page_size = 100 := by
  induction responses with
  | nil =>
    intro cursor acc req hreq
    simp only [get_existing_games_go, List.mem_singleton] at hreq
    simp [hreq]
  | cons r rest ih =>
    intro cursor acc req hreq
    cases r with
    | err =>
      simp only [get_existing_games_go, List.mem_singleton] at hreq
      simp [hreq]
    | ok results hm c =>
      cases hm
      · simp only [get_existing_games_go, Bool.false_eq_true, if_neg,
          not_false_iff, List.mem_singleton] at hreq
        simp [hreq]
      · simp only [get_existing_games_go, if_pos, List.mem_cons] at hreq
        rcases hreq with hreq | hreq
        · simp [hreq]
        · exact ih c (results.foldl insertPage acc) req hreq

theorem pagesFetched_append_err (pre rest : List QueryResponse)
    (h : ∀ r ∈ pre, isOkMore r = true) :
    pagesFetched (pre ++ QueryResponse.err :: rest) = pagesFetched pre := by
  induction pre with
  | nil => rfl
  | cons r pre ih =>
    cases r with
    | err =>
      have hr := h QueryResponse.err (List.mem_cons_self _ _)
      simp [isOkMore] at hr
    | ok results hm c =>
      cases hm
      · have hr := h (QueryResponse.ok results false c) (List.mem_cons_self _ _)
        simp [isOkMore] at hr
      · have hrest : ∀ x ∈ pre, isOkMore x = true :=
          fun x hx => h x (List.mem_cons_of_mem _ hx)
        calc pagesFetched ((QueryResponse.ok results true c :: pre)
              ++ QueryResponse.err :: rest)
            = results ++ pagesFetched (pre ++ QueryResponse.err :: rest) := rfl
          _ = results ++ pagesFetched pre := by rw [ih hrest]
          _ = pagesFetched (QueryResponse.ok results true c :: pre) := rfl

/-- C9: Pagination degradation.  Every request the existing-records scan
issues carries page size 100; the returned mapping is exactly the
aggregation, page by page, of the pages fetched before the loop stopped
(`pagesFetched` ends at the first transport error or at the first page
reporting no more results); and when a transport error interrupts the scan
after a prefix of successful pages, the result equals what the scan of that
prefix alone collects — the partial mapping is returned, not discarded, and
no error is raised (the function is total). -/
theorem C9_pagination (responses : List QueryResponse) :
    (∀ req ∈ (get_existing_games responses).1, req.page_size = 100)
    ∧ (get_existing_games responses).2
        = (pagesFetched responses).foldl insertPage []
    ∧ (∀ (pre rest : List QueryResponse), (∀ r ∈ pre, isOkMore r = true) →
        (get_existing_games (pre ++ QueryResponse.err :: rest)).2
          = (get_existing_games pre).2) := by
  refine ⟨go_reqs responses none [], go_spec responses none [], ?_⟩
  intro pre rest h
  unfold get_existing_games
  rw [go_spec, go_spec, pagesFetched_append_err pre rest h]

/-- Closed witness for `C9_pagination`. -/
theorem C9_pagination_witness :
    (get_existing_games
        [QueryResponse.ok [⟨some 10, "pa"⟩] true (some "c1"),
         QueryResponse.err,
         QueryResponse.ok [⟨some 11, "pb"⟩] false none]).2
      = (get_existing_games [QueryResponse.ok [⟨some 10, "pa"⟩] true (some "c1")]).2
    ∧ ∀ req ∈ (get_existing_games
        [QueryResponse.ok [⟨some 10, "pa"⟩] true (some "c1"), QueryResponse.err]).1,
        req.page_size = 100 := by
  constructor
  · exact (C9_pagination []).2.2 [QueryResponse.ok [⟨some 10, "pa"⟩] true (some "c1")]
      [QueryResponse.ok [⟨some 11, "pb"⟩] false none] (by simp [isOkMore])
  · exact (C9_pagination
      [QueryResponse.ok [⟨some 10, "pa"⟩] true (some "c1"), QueryResponse.err]).1

theorem getKey_insertPage_zero (acc : List (Int × String)) (page : NotionPage)
    (h : getKey acc 0 = none) : getKey (insertPage acc page) 0 = none := by
  unfold insertPage
  rcases page.app_id_number with _ | n
  · exact h
  · by_cases hn : n = 0
    · simp [hn, h]
    · simp only [if_pos, ne_eq, hn, not_false_iff]
      rw [getKey_setKey_ne _ _ _ _ (fun heq => hn heq.symm)]
      exact h

theorem getKey_foldl_insertPage_zero (pages : List NotionPage)
    (acc : List (Int × String)) (h : getKey acc 0 = none) :
    getKey (pages.foldl insertPage acc) 0 = none := by
  induction pages generalizing acc with
  | nil => exact h
  | cons p rest ih =>
    exact ih (insertPage acc p) (getKey_insertPage_zero acc p h)

/-- C10: The existing-records scan never maps item id 0 (a page whose
`App ID` number is 0 or absent is skipped by the truthiness test of line
364), so an item with id 0 is always routed to the create path of the sync
loop — even when the sink holds a record for it among the scanned pages. -/
theorem C10_zero_appid (responses : List QueryResponse) (callOk : Int → Bool)
    (games : List OwnedGame) (g : OwnedGame) (hg : g ∈ games)
    (h0 : g.appid = 0) :
    getKey (get_existing_games responses).2 0 = none
    ∧ (0 : Int) ∈ (sync_games_to_notion (get_existing_games responses).2 true
        (fun _ => false) callOk games).createCalls
    ∧ (0 : Int) ∉ (sync_games_to_notion (get_existing_games responses).2 true
        (fun _ => false) callOk games).updateCalls := by
  have hm : getKey (get_existing_games responses).2 0 = none := by
    unfold get_existing_games
    rw [go_spec]
    exact getKey_foldl_insertPage_zero _ _ rfl
  obtain ⟨h1, h2, -⟩ := sync_fold_spec (get_existing_games responses).2
    (fun _ => false) callOk games ⟨0, 0, 0, [], []⟩
  refine ⟨hm, ?_, ?_⟩
  · show (0 : Int) ∈ (sync_games_to_notion (get_existing_games responses).2 true
      (fun _ => false) callOk games).createCalls
    have : (sync_games_to_notion (get_existing_games responses).2 true
        (fun _ => false) callOk games).createCalls
        = (games.filter (predC (get_existing_games responses).2
            (fun _ => false))).map OwnedGame.appid := by
      simpa [sync_games_to_notion] using h2
    rw [this]
    refine List.mem_map.mpr ⟨g, List.mem_filter.mpr ⟨hg, ?_⟩, h0⟩
    simp [predC, h0, hm]
  · have : (sync_games_to_notion (get_existing_games responses).2 true
        (fun _ => false) callOk games).updateCalls
        = (games.filter (predU (get_existing_games responses).2
            (fun _ => false))).map OwnedGame.appid := by
      simpa [sync_games_to_notion] using h1
    rw [this]
    intro hmem
    obtain ⟨g', hg', hid⟩ := List.mem_map.mp hmem
    have hp := (List.mem_filter.mp hg').2
    have hp' : (getKey (get_existing_games responses).2 g'.appid).isSome = true := by
      simpa [predU] using hp
    rw [hid, hm] at hp'
    simp at hp'

/-- Closed witness for `C10_zero_appid`: the sink does hold a page whose
`App ID` number is 0, yet the item with id 0 is created, not updated. -/
theorem C10_zero_appid_witness :
    getKey (get_existing_games
        [QueryResponse.ok [⟨some 0, "page0"⟩, ⟨some 5, "page5"⟩] false none]).2 0
      = none
    ∧ (0 : Int) ∈ (sync_games_to_notion (get_existing_games
        [QueryResponse.ok [⟨some 0, "page0"⟩, ⟨some 5, "page5"⟩] false none]).2
        true (fun _ => false) (fun _ => true) [⟨0, 10, 20⟩]).createCalls := by
  have h := C10_zero_appid
    [QueryResponse.ok [⟨some 0, "page0"⟩, ⟨some 5, "page5"⟩] false none]
    (fun _ => true) [⟨0, 10, 20⟩] ⟨0, 10, 20⟩ (by simp) rfl
  exact ⟨h.1, h.2.1⟩

end Tracker
